import Mathlib

/-!
Verification of the audio-summarizer pipeline (two AWS Lambda handlers plus a
transcript formatter) against its natural-language specification.

Python strings are modelled as lists of characters (`Str`), dictionaries with
known fields as structures with `Option` fields where the source treats the
field as optional, and fallible lookups as `Option`/`Except` results.  The
external services (S3, Transcribe, Bedrock) are modelled as oracle parameters:
each handler receives the outcome of every external call it makes and returns
the response it would produce together with the list of requests it issued.
-/

/-- Python `str` modelled as a list of characters. -/
abbrev Str := List Char

/-- CPython `str.isspace` for a single character: ASCII whitespace
(TAB..CR, space), the C1/latin-1 additions (FS..US, NEL, NBSP) and the
Unicode space separators.  `str.rstrip()` strips exactly these. -/
def pyIsSpace (c : Char) : Bool :=
  (9 ≤ c.toNat && c.toNat ≤ 13) || c.toNat = 32 ||
  (28 ≤ c.toNat && c.toNat ≤ 31) || c.toNat = 133 || c.toNat = 160 ||
  c.toNat = 5760 || (8192 ≤ c.toNat && c.toNat ≤ 8202) ||
  c.toNat = 8232 || c.toNat = 8233 || c.toNat = 8239 || c.toNat = 8287 ||
  c.toNat = 12288

/-- Python `s.rstrip()`: remove all trailing whitespace characters. -/
def rstrip (s : Str) : Str := (s.reverse.dropWhile pyIsSpace).reverse

namespace Summarize

/-- One entry of an item's `alternatives` list (field `content`). -/
structure Alt where
  content : Str
deriving DecidableEq

/-- One transcript item of `results.items` in the Transcribe JSON output:
field `type` (`"pronunciation"` or `"punctuation"`), optional field
`speaker_label`, and the list `alternatives`. -/
structure Item where
  type : Str
  speaker_label : Option Str
  alternatives : List Alt
deriving DecidableEq

/-- The `results` object of the Transcribe JSON output (field `items`). -/
structure TranscriptResults where
  items : List Item
deriving DecidableEq

/-- The parsed Transcribe JSON document (field `results`). -/
structure TranscriptJson where
  results : TranscriptResults
deriving DecidableEq

/-- Loop state of `extract_transcript_from_textract`: the accumulated
`output_text` and the `current_speaker` cursor (initially `None`). -/
structure FmtState where
  output_text : Str
  current_speaker : Option Str
deriving DecidableEq

/-- `item['alternatives'][0]['content']`; `none` models the `IndexError`
raised when the `alternatives` list is empty. -/
def contentOf (item : Item) : Option Str :=
  match item.alternatives with
  | [] => none
  | alt :: _ => some alt.content

/-- One iteration of the loop body of `extract_transcript_from_textract`
(lambda_summarize.py lines 102-115): read `speaker_label` and the content,
emit a `"\n<speaker>: "` header when the label is present and differs from
the current speaker, `rstrip` the accumulated text when the item is
punctuation, then append the content and a single trailing space. -/
def processItem (st : FmtState) (item : Item) : Option FmtState :=
  match contentOf item with
  | none => none
  | some content =>
      let st1 : FmtState :=
        match item.speaker_label with
        | none => st
        | some lbl =>
            if some lbl = st.current_speaker then st
            else { output_text := st.output_text ++ ('\n' :: (lbl ++ [':', ' '])),
                   current_speaker := some lbl }
      let out2 : Str :=
        if item.type = ("punctuation").data then rstrip st1.output_text
        else st1.output_text
      some { output_text := out2 ++ content ++ [' '], current_speaker := st1.current_speaker }

/-- The `for item in items` loop of `extract_transcript_from_textract`;
`none` models an uncaught lookup error inside the loop. -/
def runItems : List Item → FmtState → Option FmtState
  | [], st => some st
  | item :: rest, st =>
      match processItem st item with
      | none => none
      | some st2 => runItems rest st2

/-- The initial loop state: `output_text = ""`, `current_speaker = None`. -/
def initState : FmtState := { output_text := [], current_speaker := none }

/-- `extract_transcript_from_textract` (lambda_summarize.py lines 84-117),
taking the already-parsed JSON document. -/
def extract_transcript_from_textract (doc : TranscriptJson) : Option Str :=
  (runItems doc.results.items initState).map FmtState.output_text

/-- Invariant of the formatter loop: the accumulated output is empty or ends
with a non-whitespace character followed by exactly one space. -/
def goodOut (o : Str) : Prop :=
  o = [] ∨ ∃ y c, pyIsSpace c = false ∧ o = (y ++ [c]) ++ [' ']

/-- Well-formed transcript item: the `alternatives` list is non-empty and the
content is a non-empty string of non-whitespace characters (a word or a
punctuation mark, as produced by the transcription service). -/
def contentWf (item : Item) : Prop :=
  ∃ cs, contentOf item = some cs ∧ cs ≠ [] ∧ ∀ c ∈ cs, pyIsSpace c = false

end Summarize

/-- One lowercase hexadecimal digit, as produced by `json.dumps`. -/
def hexDigit (n : Nat) : Char :=
  if n < 10 then Char.ofNat (48 + n) else Char.ofNat (87 + n)

/-- Four-digit lowercase hexadecimal rendering of a code unit. -/
def hex4 (n : Nat) : Str :=
  [hexDigit (n / 4096 % 16), hexDigit (n / 256 % 16), hexDigit (n / 16 % 16),
   hexDigit (n % 16)]

/-- Escape of one character inside a JSON string literal, as Python
`json.dumps` (default `ensure_ascii=True`) produces it: two-character
escapes for quote, backslash and the common control characters, a
backslash-u four-digit escape for the remaining control characters and for
non-ASCII characters, with surrogate pairs above the basic plane. -/
def jsonEscapeChar (c : Char) : Str :=
  if c = '"' then ['\\', '"']
  else if c = '\\' then ['\\', '\\']
  else if c = '\n' then ['\\', 'n']
  else if c = '\r' then ['\\', 'r']
  else if c = '\t' then ['\\', 't']
  else if c.toNat = 8 then ['\\', 'b']
  else if c.toNat = 12 then ['\\', 'f']
  else if c.toNat < 32 then '\\' :: ('u' :: hex4 c.toNat)
  else if c.toNat < 127 then [c]
  else if c.toNat < 65536 then '\\' :: ('u' :: hex4 c.toNat)
  else
    ('\\' :: ('u' :: hex4 (55296 + (c.toNat - 65536) / 1024))) ++
    ('\\' :: ('u' :: hex4 (56320 + (c.toNat - 65536) % 1024)))

/-- The escaped body of a JSON string literal. -/
def jsonEscape (s : Str) : Str := (s.map jsonEscapeChar).flatten

/-- Python `json.dumps` applied to a string: quote, escaped body, quote. -/
def json_dumps_str (s : Str) : Str := '"' :: (jsonEscape s ++ ['"'])

/-- Characters that `json.dumps` leaves unescaped: printable ASCII other
than quote and backslash. -/
def plainChar (c : Char) : Prop :=
  32 ≤ c.toNat ∧ c.toNat < 127 ∧ c ≠ '"' ∧ c ≠ '\\'

instance : DecidablePred plainChar := fun c => by
  unfold plainChar
  infer_instance

/-- The `bucket` object of an S3 event record; the `name` field may be
absent. -/
structure S3BucketRef where
  name : Option Str
deriving DecidableEq

/-- The `object` object of an S3 event record; the `key` field may be
absent. -/
structure S3ObjectRef where
  key : Option Str
deriving DecidableEq

/-- The `s3` object of an event record; `bucket` and `object` may be
absent. -/
structure S3EntityRef where
  bucket : Option S3BucketRef
  object : Option S3ObjectRef
deriving DecidableEq

/-- One record of the trigger event; the `s3` field may be absent. -/
structure S3EventRecord where
  s3 : Option S3EntityRef
deriving DecidableEq

/-- The trigger event; the `Records` list may be absent. -/
structure S3Event where
  Records : Option (List S3EventRecord)
deriving DecidableEq

/-- `event['Records'][0]['s3']['bucket']['name']` and
`event['Records'][0]['s3']['object']['key']` (lambda_transcribe.py lines
38-39, lambda_summarize.py lines 34-35); `none` models the uncaught
KeyError/IndexError this extraction raises on a malformed event. -/
def getBucketKey (event : S3Event) : Option (Str × Str) := do
  let records ← event.Records
  let r ← records.head?
  let s3r ← r.s3
  let b ← s3r.bucket
  let bname ← b.name
  let o ← s3r.object
  let k ← o.key
  pure (bname, k)

/-- Handler response dictionary: `statusCode` and the JSON-encoded body. -/
structure Response where
  statusCode : Nat
  body : Str
deriving DecidableEq

/-- Python `needle` is a leading segment of `hay`. -/
def strStartsWith : Str → Str → Bool
  | [], _ => true
  | _ :: _, [] => false
  | n :: ns, h :: hs => n == h && strStartsWith ns hs

/-- Python `needle in hay` on strings: substring containment. -/
def strContains (needle : Str) : Str → Bool
  | [] => needle == []
  | c :: t => strStartsWith needle (c :: t) || strContains needle t

namespace Transcribe

/-- The argument dictionary of the `start_transcription_job` call
(lambda_transcribe.py lines 55-66). -/
structure StartJobRequest where
  TranscriptionJobName : Str
  MediaFileUri : Str
  MediaFormat : Str
  LanguageCode : Str
  OutputBucketName : Str
  OutputKey : Str
  ShowSpeakerLabels : Bool
  MaxSpeakerLabels : Nat
deriving DecidableEq

/-- A single-quote character. -/
def sq : Char := '\''

/-- `str(KeyError(k))`: the missing key in single quotes. -/
def keyErrorRepr (k : Str) : Str := sq :: (k ++ [sq])

/-- `lambda_handler` of lambda_transcribe.py.  Oracle inputs: the value of
the environment variable `S3BUCKETNAMETEXT` (`none` when absent), the
generated `uuid.uuid4()` string, and the outcome of the job-submission
call (`some e` when the call raises an exception whose string
representation is `e`).  Returns `none` when the handler itself raises an
uncaught error, otherwise its response together with the list of job-start
requests it issued. -/
def lambda_handler (event : S3Event) (envS3BUCKETNAMETEXT : Option Str)
    (uuid4 : Str) (startJobError : Option Str) :
    Option (Response × List StartJobRequest) :=
  match getBucketKey event with
  | none => none
  | some (bucket, key) =>
    if key ≠ ("dialog.mp3").data then
      some ({ statusCode := 200,
              body := json_dumps_str ((("Skipping file ").data ++ key) ++
                (" - not dialog.mp3").data) }, [])
    else
      let job_name := ("transcription-job-").data ++ uuid4
      match envS3BUCKETNAMETEXT with
      | none =>
          some ({ statusCode := 500,
                  body := json_dumps_str (("Error occurred: ").data ++
                    keyErrorRepr (("S3BUCKETNAMETEXT").data)) }, [])
      | some outBucket =>
          let req : StartJobRequest :=
            { TranscriptionJobName := job_name
              MediaFileUri := ("s3://").data ++ bucket ++ ('/' :: key)
              MediaFormat := ("mp3").data
              LanguageCode := ("en-US").data
              OutputBucketName := outBucket
              OutputKey := job_name ++ ("-transcript.json").data
              ShowSpeakerLabels := true
              MaxSpeakerLabels := 2 }
          match startJobError with
          | some e =>
              some ({ statusCode := 500,
                      body := json_dumps_str (("Error occurred: ").data ++ e) }, [req])
          | none =>
              some ({ statusCode := 200,
                      body := json_dumps_str ((("Submitted transcription job for ").data ++ key) ++
                        ((" from bucket ").data ++ (bucket ++ (".").data))) }, [req])

end Transcribe

/-- Modelled from the spec: the prompt-template resource
(`prompt_template.txt`) is not part of the source tree; per the spec it is
"a text file with named placeholders for `transcript` and `topics`",
substituted at render time.  A template is modelled by the three literal
segments around its two placeholders. -/
structure PromptTemplate where
  pre : Str
  mid : Str
  post : Str
deriving DecidableEq

/-- Rendering of the topic list for its placeholder: the topics in order,
separated. -/
def joinSep (sep : Str) : List Str → Str
  | [] => []
  | [x] => x
  | x :: y :: rest => (x ++ sep) ++ joinSep sep (y :: rest)

/-- Modelled from the spec: Jinja2 `Template(template_string).render(data)`
with `data = {transcript, topics}` substitutes the dialogue verbatim for
the `transcript` placeholder and the rendered topic list for the `topics`
placeholder. -/
def jinja_render (tpl : PromptTemplate) (transcript : Str) (topics : List Str) : Str :=
  ((tpl.pre ++ transcript) ++ (tpl.mid ++ joinSep ((", ").data) topics)) ++ tpl.post

namespace Summarize

/-- The keyword-argument dictionary of the bedrock `invoke_model` call
(lambda_summarize.py lines 148-162): fixed model identifier, content
types, one user message whose single content block holds the prompt, and
the fixed inference configuration. -/
structure BedrockKwargs where
  modelId : Str
  contentType : Str
  accept : Str
  role : Str
  promptText : Str
  maxTokens : Nat
  temperature : ℚ
  topP : ℚ
deriving DecidableEq

/-- `bedrock_summarisation` (lambda_summarize.py lines 120-172): open and
read `prompt_template.txt` and parse it as a Jinja2 template (lines
132-142, both fallible and both raising inside the handler's try block —
`Except.error e` in `templateResult` is a FileNotFoundError or a
template-parse error with string representation `e`, raised before any
request is built), render the prompt from the template, the transcript
and the fixed topic list, build the invocation arguments, invoke the
model, and extract the first content block carrying a text field (empty
string when none exists).  The invocation outcome is an oracle:
`Except.ok blocks` gives the content blocks of the response message, each
with its optional text field; `Except.error e` is a raised exception with
string representation `e`.  Returns the list of requests issued (empty
when the template step raises, before the invocation) together with the
summary or the exception. -/
def bedrock_summarisation (templateResult : Except Str PromptTemplate)
    (transcript : Str)
    (invokeResult : Except Str (List (Option Str))) :
    List BedrockKwargs × Except Str Str :=
  match templateResult with
  | Except.error e => ([], Except.error e)
  | Except.ok tpl =>
    let prompt := jinja_render tpl transcript
      [("charges").data, ("location").data, ("availability").data]
    let kwargs : BedrockKwargs :=
      { modelId := ("us.amazon.nova-lite-v1:0").data
        contentType := ("application/json").data
        accept := ("*/*").data
        role := ("user").data
        promptText := prompt
        maxTokens := 2048
        temperature := 0
        topP := 9 / 10 }
    match invokeResult with
    | Except.error e => ([kwargs], Except.error e)
    | Except.ok blocks => ([kwargs], Except.ok ((blocks.findSome? id).getD []))

/-- One s3 `put_object` call (lambda_summarize.py lines 60-65), recorded
only when the put succeeds: an S3 put is a single atomic write, so a
failed put leaves no object behind. -/
structure PutObjectCall where
  Bucket : Str
  Key : Str
  Body : Str
  ContentType : Str
deriving DecidableEq

/-- `lambda_handler` of lambda_summarize.py.  Oracle inputs: the outcome
of the `get_object` + read + decode + `json.loads` pipeline (`Except.ok
doc` when the fetched body is valid transcript JSON), the outcome of the
prompt-template open/read/parse step inside `bedrock_summarisation`
(`Except.error e` when it raises), the outcome of the model invocation,
and the outcome of the `put_object` call (`some e` when it raises).
Returns `none` when the handler raises an uncaught error before the
guard, otherwise its response together with the model requests issued and
the storage writes performed. -/
def lambda_handler (event : S3Event)
    (templateResult : Except Str PromptTemplate)
    (fetchResult : Except Str TranscriptJson)
    (invokeResult : Except Str (List (Option Str)))
    (putError : Option Str) :
    Option (Response × List BedrockKwargs × List PutObjectCall) :=
  match getBucketKey event with
  | none => none
  | some (bucket, key) =>
    if strContains (("-transcript.json").data) key = false then
      some ({ statusCode := 200,
              body := json_dumps_str ((("Skipping file ").data ++ key) ++
                (" - not a transcript JSON file").data) }, [], [])
    else
      match fetchResult with
      | Except.error e =>
          some ({ statusCode := 500,
                  body := json_dumps_str (("Error occurred: ").data ++ e) }, [], [])
      | Except.ok doc =>
        match extract_transcript_from_textract doc with
        | none =>
            some ({ statusCode := 500,
                    body := json_dumps_str (("Error occurred: ").data ++
                      ("list index out of range").data) }, [], [])
        | some transcript =>
          match bedrock_summarisation templateResult transcript invokeResult with
          | (reqs, Except.error e) =>
              some ({ statusCode := 500,
                      body := json_dumps_str (("Error occurred: ").data ++ e) },
                reqs, [])
          | (reqs, Except.ok summary) =>
            match putError with
            | some e =>
                some ({ statusCode := 500,
                        body := json_dumps_str (("Error occurred: ").data ++ e) },
                  reqs, [])
            | none =>
                some ({ statusCode := 200,
                        body := json_dumps_str (((("Successfully summarized ").data ++ key) ++
                          ((" from bucket ").data ++ bucket)) ++
                          ((". Summary: ").data ++ summary)) },
                  reqs,
                  [{ Bucket := bucket, Key := ("results.txt").data, Body := summary,
                     ContentType := ("text/plain").data }])

end Summarize

/-- A well-formed trigger event with the given bucket name and object key. -/
def mkEvent (bucket key : Str) : S3Event :=
  { Records := some [{ s3 := some { bucket := some { name := some bucket },
                                    object := some { key := some key } } }] }

/-- The three-item document of spec Scenario 1. -/
def scenario1Doc : Summarize.TranscriptJson :=
  { results := { items :=
      [ { type := ("pronunciation").data, speaker_label := some (("spk_0").data),
          alternatives := [{ content := ("Hello").data }] },
        { type := ("punctuation").data, speaker_label := none,
          alternatives := [{ content := (",").data }] },
        { type := ("pronunciation").data, speaker_label := some (("spk_0").data),
          alternatives := [{ content := ("there").data }] } ] } }

/-- A pronunciation item "Hello" spoken by spk_0. -/
def wordHelloItem : Summarize.Item :=
  { type := ("pronunciation").data, speaker_label := some (("spk_0").data),
    alternatives := [{ content := ("Hello").data }] }

/-- An unlabelled punctuation item ",". -/
def punctCommaItem : Summarize.Item :=
  { type := ("punctuation").data, speaker_label := none,
    alternatives := [{ content := (",").data }] }

/-- A pronunciation item "there" spoken by spk_0. -/
def wordThereItem : Summarize.Item :=
  { type := ("pronunciation").data, speaker_label := some (("spk_0").data),
    alternatives := [{ content := ("there").data }] }

/-- A whitespace character is stripped: `' '` satisfies `pyIsSpace`. -/
lemma pyIsSpace_space : pyIsSpace ' ' = true := by decide

/-- `rstrip` drops a final space. -/
lemma rstrip_append_space (s : Str) : rstrip (s ++ [' ']) = rstrip s := by
  simp [rstrip, List.reverse_append, List.dropWhile_cons, pyIsSpace_space]

/-- `rstrip` keeps a string whose last character is not whitespace. -/
lemma rstrip_last_nonspace (s : Str) (c : Char) (h : pyIsSpace c = false) :
    rstrip (s ++ [c]) = s ++ [c] := by
  simp [rstrip, List.reverse_append, List.dropWhile_cons, h]

namespace Summarize

/-- Under the invariant, the output is its own `rstrip` plus at most one space. -/
lemma goodOut_ext {o : Str} (h : goodOut o) : ∃ u, o = rstrip o ++ u := by
  rcases h with rfl | ⟨y, c, hc, rfl⟩
  · exact ⟨[], rfl⟩
  · exact ⟨[' '], by rw [rstrip_append_space, rstrip_last_nonspace _ _ hc]⟩

/-- Under the invariant, `rstrip` does not change the number of newlines. -/
lemma rstrip_count_nl {o : Str} (hg : goodOut o) :
    (rstrip o).count '\n' = o.count '\n' := by
  rcases hg with rfl | ⟨y, c, hc, rfl⟩
  · rfl
  · rw [rstrip_append_space, rstrip_last_nonspace _ _ hc]
    simp [List.count_append, List.count_cons]

/-- A string of non-whitespace characters contains no newline. -/
lemma count_nl_of_nospace {cs : Str} (hns : ∀ c ∈ cs, pyIsSpace c = false) :
    cs.count '\n' = 0 :=
  List.count_eq_zero.mpr (fun h => absurd (hns '\n' h) (by decide))

/-- Processing a non-punctuation item appends an optional speaker header,
the content, and a single trailing space. -/
lemma processItem_word (o : Str) (cur : Option Str) (item : Item) (cs : Str)
    (hco : contentOf item = some cs)
    (hty : item.type ≠ ("punctuation").data) :
    ∃ h spk, processItem ⟨o, cur⟩ item =
      some { output_text := (o ++ h ++ cs) ++ [' '], current_speaker := spk } ∧
      (h = [] ∨ ∃ lbl, h = ('\n' :: lbl) ++ [':', ' ']) := by
  rcases hlb : item.speaker_label with _ | lbl
  · exact ⟨[], cur, by simp [processItem, hco, hlb, hty], Or.inl rfl⟩
  · by_cases he : some lbl = cur
    · refine ⟨[], cur, ?_, Or.inl rfl⟩
      simp only [processItem, hco, hlb]
      rw [if_pos he, if_neg hty]
      simp
    · exact ⟨('\n' :: lbl) ++ [':', ' '], some lbl,
        by simp [processItem, hco, hlb, he, hty], Or.inr ⟨lbl, rfl⟩⟩

/-- Processing an unlabelled punctuation item strips the trailing whitespace
of the accumulated output, then appends the content and a space. -/
lemma processItem_punct_nolabel (o : Str) (cur : Option Str) (item : Item) (cs : Str)
    (hco : contentOf item = some cs)
    (hty : item.type = ("punctuation").data)
    (hlb : item.speaker_label = none) :
    processItem ⟨o, cur⟩ item =
      some { output_text := (rstrip o ++ cs) ++ [' '], current_speaker := cur } := by
  simp [processItem, hco, hlb, hty]

/-- Step preservation: processing a well-formed item succeeds, preserves the
invariant, and only extends the `rstrip`-stable part of the output. -/
lemma processItem_wf (st : FmtState) (item : Item)
    (hwf : contentWf item) (hg : goodOut st.output_text) :
    ∃ st2, processItem st item = some st2 ∧ goodOut st2.output_text ∧
      ∃ z, rstrip st2.output_text = rstrip st.output_text ++ z := by
  obtain ⟨cs, hco, hne, hns⟩ := hwf
  obtain ⟨cys, cl, rfl⟩ : ∃ L b, cs = L ++ [b] := by
    rcases cs.eq_nil_or_concat' with h | h
    · exact absurd h hne
    · exact h
  have hcl : pyIsSpace cl = false := hns cl (by simp)
  obtain ⟨u, hu⟩ := goodOut_ext hg
  have key : ∃ out2 spk, processItem st item =
      some { output_text := (out2 ++ (cys ++ [cl])) ++ [' '], current_speaker := spk } ∧
      ∃ w1, out2 = rstrip st.output_text ++ w1 := by
    rcases hlb : item.speaker_label with _ | lbl
    · by_cases hty : item.type = ("punctuation").data
      · exact ⟨rstrip st.output_text, st.current_speaker,
          by simp [processItem, hco, hlb, hty], [], by simp⟩
      · exact ⟨st.output_text, st.current_speaker,
          by simp [processItem, hco, hlb, hty], u, hu⟩
    · by_cases he : some lbl = st.current_speaker
      · by_cases hty : item.type = ("punctuation").data
        · refine ⟨rstrip st.output_text, st.current_speaker, ?_, [], by simp⟩
          simp only [processItem, hco, hlb]
          rw [if_pos he, if_pos hty]
        · refine ⟨st.output_text, st.current_speaker, ?_, u, hu⟩
          simp only [processItem, hco, hlb]
          rw [if_pos he, if_neg hty]
      · by_cases hty : item.type = ("punctuation").data
        · refine ⟨(st.output_text ++ ('\n' :: lbl)) ++ [':'], some lbl, ?_, ?_⟩
          · have hcolon : rstrip (st.output_text ++ ('\n' :: (lbl ++ [':', ' ']))) =
                (st.output_text ++ ('\n' :: lbl)) ++ [':'] := by
              have hrw : st.output_text ++ ('\n' :: (lbl ++ [':', ' '])) =
                  ((st.output_text ++ ('\n' :: lbl)) ++ [':']) ++ [' '] := by simp
              rw [hrw, rstrip_append_space, rstrip_last_nonspace _ ':' (by decide)]
            simp only [processItem, hco, hlb]
            rw [if_neg he, if_pos hty]
            simp only [hcolon]
          · refine ⟨u ++ (('\n' :: lbl) ++ [':']), ?_⟩
            nth_rewrite 1 [hu]
            simp
        · refine ⟨st.output_text ++ ('\n' :: (lbl ++ [':', ' '])), some lbl,
            by simp [processItem, hco, hlb, he, hty], ?_⟩
          refine ⟨u ++ ('\n' :: (lbl ++ [':', ' '])), ?_⟩
          nth_rewrite 1 [hu]
          simp
  obtain ⟨out2, spk, hp, w1, hw1⟩ := key
  refine ⟨_, hp, Or.inr ⟨out2 ++ cys, cl, hcl, by simp⟩, w1 ++ (cys ++ [cl]), ?_⟩
  have hrw : (out2 ++ (cys ++ [cl])) ++ [' '] = ((out2 ++ cys) ++ [cl]) ++ [' '] := by simp
  rw [hrw, rstrip_append_space, rstrip_last_nonspace _ _ hcl, hw1]
  simp

/-- Run preservation: over well-formed items the loop succeeds, preserves the
invariant, and only extends the `rstrip`-stable part of the output. -/
lemma runItems_wf (items : List Item) : ∀ st : FmtState,
    (∀ item ∈ items, contentWf item) → goodOut st.output_text →
    ∃ st2, runItems items st = some st2 ∧ goodOut st2.output_text ∧
      ∃ z, rstrip st2.output_text = rstrip st.output_text ++ z := by
  induction items with
  | nil => exact fun st _ hg => ⟨st, rfl, hg, [], by simp⟩
  | cons item rest ih =>
      intro st hwf hg
      obtain ⟨st2, hp, hg2, z1, hz1⟩ := processItem_wf st item (hwf item (by simp)) hg
      obtain ⟨st3, hr, hg3, z2, hz2⟩ := ih st2 (fun x hx => hwf x (by simp [hx])) hg2
      exact ⟨st3, by simp [runItems, hp, hr], hg3, z1 ++ z2, by rw [hz2, hz1]; simp⟩

/-- The loop splits over list append. -/
lemma runItems_append (l1 l2 : List Item) : ∀ st : FmtState,
    runItems (l1 ++ l2) st =
      match runItems l1 st with
      | none => none
      | some st2 => runItems l2 st2 := by
  induction l1 with
  | nil => exact fun st => rfl
  | cons item rest ih =>
      intro st
      cases hp : processItem st item with
      | none => simp [runItems, hp]
      | some st2 => simp [runItems, hp, ih st2]

/-- `runItems_wf` restated on the components of the loop state. -/
lemma runItems_wf_comp (items : List Item) (o : Str) (cur : Option Str)
    (hwf : ∀ item ∈ items, contentWf item) (hg : goodOut o) :
    ∃ o2 cur2, runItems items ⟨o, cur⟩ = some ⟨o2, cur2⟩ ∧ goodOut o2 ∧
      ∃ z, rstrip o2 = rstrip o ++ z := by
  obtain ⟨st2, h1, h2, z, h3⟩ := runItems_wf items ⟨o, cur⟩ hwf hg
  obtain ⟨o2, cur2⟩ := st2
  exact ⟨o2, cur2, h1, h2, z, h3⟩

/-- When every item of the list carries the speaker label that is already
current, no further header is emitted: the loop succeeds, keeps the label,
preserves the invariant and the number of newlines in the output. -/
lemma runItems_same_speaker (lbl : Str) (items : List Item) : ∀ st : FmtState,
    (∀ item ∈ items, contentWf item) →
    (∀ item ∈ items, item.speaker_label = some lbl) →
    st.current_speaker = some lbl → goodOut st.output_text →
    ∃ st2, runItems items st = some st2 ∧ st2.current_speaker = some lbl ∧
      goodOut st2.output_text ∧
      st2.output_text.count '\n' = st.output_text.count '\n' := by
  induction items with
  | nil => exact fun st _ _ hcs hg => ⟨st, rfl, hcs, hg, rfl⟩
  | cons item rest ih =>
      intro st hwf hlb hcs hg
      obtain ⟨cs, hco, hne, hns⟩ := hwf item (by simp)
      obtain ⟨cys, cl, rfl⟩ : ∃ L b, cs = L ++ [b] := by
        rcases cs.eq_nil_or_concat' with h | h
        · exact absurd h hne
        · exact h
      have hlbi := hlb item (by simp)
      have hstep : ∃ out2, processItem st item =
          some { output_text := (out2 ++ (cys ++ [cl])) ++ [' '],
                 current_speaker := st.current_speaker } ∧
          out2.count '\n' = st.output_text.count '\n' := by
        by_cases hty : item.type = ("punctuation").data
        · refine ⟨rstrip st.output_text, ?_, rstrip_count_nl hg⟩
          simp only [processItem, hco, hlbi]
          rw [if_pos hcs.symm, if_pos hty]
        · refine ⟨st.output_text, ?_, rfl⟩
          simp only [processItem, hco, hlbi]
          rw [if_pos hcs.symm, if_neg hty]
      obtain ⟨out2, hp, hcnt⟩ := hstep
      have hcl : pyIsSpace cl = false := hns cl (by simp)
      have hg2 : goodOut ((out2 ++ (cys ++ [cl])) ++ [' ']) :=
        Or.inr ⟨out2 ++ cys, cl, hcl, by simp⟩
      obtain ⟨st3, hr, hcs3, hg3, hc3⟩ :=
        ih { output_text := (out2 ++ (cys ++ [cl])) ++ [' '],
             current_speaker := st.current_speaker }
          (fun x hx => hwf x (by simp [hx])) (fun x hx => hlb x (by simp [hx])) hcs hg2
      refine ⟨st3, ?_, hcs3, hg3, ?_⟩
      · simp only [runItems, hp]
        simpa using hr
      · rw [hc3]
        have h1 : List.count '\n' cys = 0 :=
          List.count_eq_zero.mpr (fun hm => absurd (hns '\n' (by simp [hm])) (by decide))
        have h2 : ¬ cl = '\n' := fun he => absurd hcl (by rw [he]; decide)
        simp [List.count_append, List.count_cons, h1, h2, hcnt]

/-- `runItems_same_speaker` restated on the components of the loop state. -/
lemma runItems_same_speaker_comp (lbl : Str) (items : List Item) (o : Str)
    (hwf : ∀ item ∈ items, contentWf item)
    (hlb : ∀ item ∈ items, item.speaker_label = some lbl)
    (hg : goodOut o) :
    ∃ o2 cur2, runItems items ⟨o, some lbl⟩ = some ⟨o2, cur2⟩ ∧ goodOut o2 ∧
      o2.count '\n' = o.count '\n' := by
  obtain ⟨st2, h1, _, h3, h4⟩ := runItems_same_speaker lbl items ⟨o, some lbl⟩ hwf hlb rfl hg
  obtain ⟨o2, cur2⟩ := st2
  exact ⟨o2, cur2, h1, h3, h4⟩

end Summarize

/-- C1: on the three-item input [pronunciation "Hello" by spk_0,
punctuation "," with no speaker label, pronunciation "there" by spk_0]
wrapped under `results.items`, the transcript formatter returns exactly
the string `"\nspk_0: Hello, there "` (literal leading newline, single
trailing space). -/
theorem c1_scenario1_output :
    Summarize.extract_transcript_from_textract scenario1Doc =
      some (("\nspk_0: Hello, there ").data) := by
  decide

open Summarize in
/-- C2: for every well-formed transcript-item sequence in which a punctuation
item immediately follows a word (pronunciation) item — well-formed meaning
each item has a non-empty, whitespace-free content, and the punctuation item
carries no speaker label, as in the transcript documents of the spec — the
formatter's output contains the word content immediately followed by the
punctuation content with no space in between; and the formatter achieves
this by removing exactly the single trailing space emitted after the word
(the output after the word ends in the word content plus one space, and
`rstrip` removes exactly that one character) before appending the
punctuation content. -/
theorem c2_punctuation_attaches (pre suf : List Summarize.Item)
    (w p : Summarize.Item) (wc pc : Str)
    (hwfpre : ∀ item ∈ pre, contentWf item)
    (hwfsuf : ∀ item ∈ suf, contentWf item)
    (hwc : contentOf w = some wc) (hwcne : wc ≠ [])
    (hwcns : ∀ c ∈ wc, pyIsSpace c = false)
    (hpc : contentOf p = some pc) (hpcne : pc ≠ [])
    (hpcns : ∀ c ∈ pc, pyIsSpace c = false)
    (hwty : w.type ≠ ("punctuation").data)
    (hpty : p.type = ("punctuation").data)
    (hplb : p.speaker_label = none)
    (out : Str)
    (hout : extract_transcript_from_textract ⟨⟨pre ++ w :: p :: suf⟩⟩ = some out) :
    (∃ s t, out = s ++ (wc ++ pc) ++ t) ∧
    ∃ stw s, runItems (pre ++ [w]) initState = some stw ∧
      stw.output_text = (s ++ wc) ++ [' '] ∧
      rstrip stw.output_text = s ++ wc := by
  obtain ⟨wys, wl, rfl⟩ : ∃ L b, wc = L ++ [b] := by
    rcases wc.eq_nil_or_concat' with h | h
    · exact absurd h hwcne
    · exact h
  obtain ⟨pys, pl, rfl⟩ : ∃ L b, pc = L ++ [b] := by
    rcases pc.eq_nil_or_concat' with h | h
    · exact absurd h hpcne
    · exact h
  have hwl : pyIsSpace wl = false := hwcns wl (by simp)
  have hpl : pyIsSpace pl = false := hpcns pl (by simp)
  obtain ⟨stA, hA, hgA, -⟩ := runItems_wf pre initState hwfpre (Or.inl rfl)
  obtain ⟨oA, curA⟩ := stA
  obtain ⟨h, spk, hw, -⟩ := processItem_word oA curA w (wys ++ [wl]) hwc hwty
  have hrB : rstrip ((oA ++ h ++ (wys ++ [wl])) ++ [' ']) = (oA ++ h) ++ (wys ++ [wl]) := by
    have h1 : (oA ++ h ++ (wys ++ [wl])) ++ [' '] =
        (((oA ++ h) ++ wys) ++ [wl]) ++ [' '] := by simp
    rw [h1, rstrip_append_space, rstrip_last_nonspace _ _ hwl]
    simp
  have hAw : runItems (pre ++ [w]) initState =
      some ⟨(oA ++ h ++ (wys ++ [wl])) ++ [' '], spk⟩ := by
    rw [runItems_append pre [w] initState, hA]
    simp only [runItems, hw]
  have hp2 := processItem_punct_nolabel ((oA ++ h ++ (wys ++ [wl])) ++ [' ']) spk
      p (pys ++ [pl]) hpc hpty hplb
  rw [hrB] at hp2
  have hgC : goodOut ((((oA ++ h) ++ (wys ++ [wl])) ++ (pys ++ [pl])) ++ [' ']) :=
    Or.inr ⟨((oA ++ h) ++ (wys ++ [wl])) ++ pys, pl, hpl, by simp⟩
  obtain ⟨oF, curF, hF, hgF, z, hz⟩ := runItems_wf_comp suf
    ((((oA ++ h) ++ (wys ++ [wl])) ++ (pys ++ [pl])) ++ [' ']) spk hwfsuf hgC
  have hrC : rstrip ((((oA ++ h) ++ (wys ++ [wl])) ++ (pys ++ [pl])) ++ [' ']) =
      ((oA ++ h) ++ (wys ++ [wl])) ++ (pys ++ [pl]) := by
    have h1 : (((oA ++ h) ++ (wys ++ [wl])) ++ (pys ++ [pl])) ++ [' '] =
        ((((oA ++ h) ++ (wys ++ [wl])) ++ pys) ++ [pl]) ++ [' '] := by simp
    rw [h1, rstrip_append_space, rstrip_last_nonspace _ _ hpl]
    simp
  rw [hrC] at hz
  obtain ⟨u2, hu2⟩ := goodOut_ext hgF
  have hrun : runItems (pre ++ w :: p :: suf) initState = some ⟨oF, curF⟩ := by
    rw [runItems_append pre (w :: p :: suf) initState, hA]
    simp only [runItems, hw]
    rw [hp2]
    exact hF
  have houtF : oF = out := by
    simpa [extract_transcript_from_textract, hrun] using hout
  constructor
  · refine ⟨oA ++ h, z ++ u2, ?_⟩
    rw [← houtF, hu2, hz]
    simp
  · exact ⟨⟨(oA ++ h ++ (wys ++ [wl])) ++ [' '], spk⟩, oA ++ h, hAw, rfl, hrB⟩

open Summarize in
/-- C3: for every transcript-item sequence in which every item carries a
speaker label equal to the previous item's label (so all items carry the
same label; items well-formed, label newline-free), the formatter emits
exactly one speaker-header segment: its output begins with the single
header `"\n<label>:"` and contains exactly one newline character — each
header segment begins with a newline, so one newline is one header. -/
theorem c3_single_header (first : Summarize.Item) (rest : List Summarize.Item)
    (lbl : Str)
    (hwf : ∀ item ∈ first :: rest, contentWf item)
    (hlb : ∀ item ∈ first :: rest, item.speaker_label = some lbl)
    (hnl : ('\n') ∉ lbl)
    (out : Str)
    (hout : extract_transcript_from_textract ⟨⟨first :: rest⟩⟩ = some out) :
    List.count '\n' out = 1 ∧ ∃ t, out = ('\n' :: (lbl ++ [':'])) ++ t := by
  obtain ⟨cs, hco, hne, hns⟩ := hwf first (by simp)
  obtain ⟨cys, cl, rfl⟩ : ∃ L b, cs = L ++ [b] := by
    rcases cs.eq_nil_or_concat' with h | h
    · exact absurd h hne
    · exact h
  have hcl : pyIsSpace cl = false := hns cl (by simp)
  have hlbf := hlb first (by simp)
  have hP : rstrip ('\n' :: (lbl ++ [':', ' '])) = ('\n' :: lbl) ++ [':'] := by
    have h1 : '\n' :: (lbl ++ [':', ' ']) = (('\n' :: lbl) ++ [':']) ++ [' '] := by simp
    rw [h1, rstrip_append_space, rstrip_last_nonspace _ ':' (by decide)]
  have hfirst : ∃ m, processItem initState first =
      some ⟨(('\n' :: (lbl ++ [':'])) ++ (m ++ (cys ++ [cl]))) ++ [' '], some lbl⟩ ∧
      List.count '\n' m = 0 := by
    by_cases hty : first.type = ("punctuation").data
    · refine ⟨[], ?_, rfl⟩
      simp only [processItem, hco, hlbf]
      rw [if_neg (show ¬ (some lbl = initState.current_speaker) by simp [initState]),
        if_pos hty]
      simp [initState, hP]
    · refine ⟨[' '], ?_, rfl⟩
      simp only [processItem, hco, hlbf]
      rw [if_neg (show ¬ (some lbl = initState.current_speaker) by simp [initState]),
        if_neg hty]
      simp [initState]
  obtain ⟨m, hp1, hm⟩ := hfirst
  have hg1 : goodOut ((('\n' :: (lbl ++ [':'])) ++ (m ++ (cys ++ [cl]))) ++ [' ']) :=
    Or.inr ⟨('\n' :: (lbl ++ [':'])) ++ (m ++ cys), cl, hcl, by simp⟩
  have hwfrest : ∀ item ∈ rest, contentWf item := fun x hx => hwf x (by simp [hx])
  have hlbrest : ∀ item ∈ rest, item.speaker_label = some lbl :=
    fun x hx => hlb x (by simp [hx])
  obtain ⟨o2, cur2, hr, hg2, hcnt2⟩ := runItems_same_speaker_comp lbl rest
    ((('\n' :: (lbl ++ [':'])) ++ (m ++ (cys ++ [cl]))) ++ [' ']) hwfrest hlbrest hg1
  obtain ⟨o2b, cur2b, hrb, hgb, z, hzb⟩ := runItems_wf_comp rest
    ((('\n' :: (lbl ++ [':'])) ++ (m ++ (cys ++ [cl]))) ++ [' ']) (some lbl) hwfrest hg1
  rw [hr] at hrb
  obtain ⟨rfl, rfl⟩ : o2 = o2b ∧ cur2 = cur2b := by
    simpa [FmtState.mk.injEq] using hrb
  have hrun : runItems (first :: rest) initState = some ⟨o2, cur2⟩ := by
    simp only [runItems, hp1]
    exact hr
  have houto : o2 = out := by
    simpa [extract_transcript_from_textract, hrun] using hout
  have hrbig : rstrip ((('\n' :: (lbl ++ [':'])) ++ (m ++ (cys ++ [cl]))) ++ [' ']) =
      ('\n' :: (lbl ++ [':'])) ++ (m ++ (cys ++ [cl])) := by
    have h1 : ((('\n' :: (lbl ++ [':'])) ++ (m ++ (cys ++ [cl]))) ++ [' ']) =
        (((('\n' :: (lbl ++ [':'])) ++ (m ++ cys)) ++ [cl]) ++ [' ']) := by simp
    rw [h1, rstrip_append_space, rstrip_last_nonspace _ _ hcl]
    simp
  rw [hrbig] at hzb
  obtain ⟨u, hu⟩ := goodOut_ext hg2
  constructor
  · rw [← houto, hcnt2]
    have h1a : List.count '\n' cys = 0 :=
      List.count_eq_zero.mpr (fun hmem => absurd (hns '\n' (by simp [hmem])) (by decide))
    have h1b : ¬ cl = '\n' := fun he => absurd hcl (by rw [he]; decide)
    have h2 : List.count '\n' lbl = 0 := List.count_eq_zero.mpr hnl
    simp [List.count_append, List.count_cons, hm, h2, h1a, h1b]
  · refine ⟨(m ++ (cys ++ [cl])) ++ (z ++ u), ?_⟩
    rw [← houto, hu, hzb]
    simp

/-- Witness for C2 at the concrete two-item input ["Hello" by spk_0, ","]. -/
theorem c2_witness :
    (∃ s t, ("\nspk_0: Hello, ").data = s ++ ((("Hello").data ++ (",").data)) ++ t) ∧
    ∃ stw s, Summarize.runItems ([] ++ [wordHelloItem]) Summarize.initState = some stw ∧
      stw.output_text = (s ++ ("Hello").data) ++ [' '] ∧
      rstrip stw.output_text = s ++ ("Hello").data :=
  c2_punctuation_attaches [] [] wordHelloItem punctCommaItem
    (("Hello").data) ((",").data)
    (by simp) (by simp) rfl (by decide) (by decide) rfl (by decide) (by decide)
    (by decide) rfl rfl (("\nspk_0: Hello, ").data) (by decide)

/-- Witness for C3 at the concrete two-item input
["Hello" by spk_0, "there" by spk_0]. -/
theorem c3_witness :
    List.count '\n' (("\nspk_0: Hello there ").data) = 1 ∧
    ∃ t, ("\nspk_0: Hello there ").data = ('\n' :: ((("spk_0").data) ++ [':'])) ++ t :=
  c3_single_header wordHelloItem [wordThereItem] (("spk_0").data)
    (by
      intro item hitem
      rcases (by simpa using hitem : item = wordHelloItem ∨ item = wordThereItem)
        with rfl | rfl
      · exact ⟨("Hello").data, rfl, by decide, by decide⟩
      · exact ⟨("there").data, rfl, by decide, by decide⟩)
    (by decide) (by decide)
    (("\nspk_0: Hello there ").data) (by decide)

/-- `jsonEscape` distributes over append. -/
lemma jsonEscape_append (a b : Str) :
    jsonEscape (a ++ b) = jsonEscape a ++ jsonEscape b := by
  simp [jsonEscape]

/-- A plain character is left unchanged by the JSON escape. -/
lemma jsonEscapeChar_plain (c : Char) (h : plainChar c) : jsonEscapeChar c = [c] := by
  obtain ⟨h32, h127, hq, hbs⟩ := h
  have hn : ¬ c = '\n' := fun he => by rw [he] at h32; exact absurd h32 (by decide)
  have hr : ¬ c = '\r' := fun he => by rw [he] at h32; exact absurd h32 (by decide)
  have ht : ¬ c = '\t' := fun he => by rw [he] at h32; exact absurd h32 (by decide)
  have h8 : ¬ c.toNat = 8 := by omega
  have h12 : ¬ c.toNat = 12 := by omega
  have hlt : ¬ c.toNat < 32 := by omega
  rw [jsonEscapeChar, if_neg hq, if_neg hbs, if_neg hn, if_neg hr, if_neg ht,
    if_neg h8, if_neg h12, if_neg hlt, if_pos h127]

/-- A string of plain characters is left unchanged by the JSON escape. -/
lemma jsonEscape_plain (s : Str) (h : ∀ c ∈ s, plainChar c) : jsonEscape s = s := by
  induction s with
  | nil => rfl
  | cons c t ih =>
      have h1 := jsonEscapeChar_plain c (h c (by simp))
      have h2 := ih (fun x hx => h x (by simp [hx]))
      simp only [jsonEscape, List.map_cons, List.flatten_cons] at h2 ⊢
      rw [h1, h2]
      rfl

/-- Extracting bucket and key from a well-formed event. -/
lemma getBucketKey_mkEvent (bucket key : Str) :
    getBucketKey (mkEvent bucket key) = some (bucket, key) := rfl

/-- C4 as stated is false at this concrete input: with the accepted key
"dialog.mp3" and the environment variable absent, the invocation does not
fail fatally — the missing-variable KeyError is raised inside the try
block, caught, and converted into a statusCode-500 handler response. -/
theorem c4_counterexample :
    Transcribe.lambda_handler (mkEvent (("mybucket").data) (("dialog.mp3").data))
        none [] none =
      some ({ statusCode := 500,
              body := json_dumps_str (("Error occurred: ").data ++
                Transcribe.keyErrorRepr (("S3BUCKETNAMETEXT").data)) }, []) := by
  decide

/-- C4 amended: when the Transcription Handler is invoked with an accepted
event (object key exactly "dialog.mp3") and the destination-bucket
environment variable S3BUCKETNAMETEXT is absent, the missing-variable
lookup error is caught by the handler's try/except and converted into a
statusCode-500 failure response carrying the error's string
representation; no job-start request is issued. -/
theorem c4_env_missing_caught (event : S3Event) (bucket uuid4 : Str)
    (startJobError : Option Str)
    (hbk : getBucketKey event = some (bucket, ("dialog.mp3").data)) :
    Transcribe.lambda_handler event none uuid4 startJobError =
      some ({ statusCode := 500,
              body := json_dumps_str (("Error occurred: ").data ++
                Transcribe.keyErrorRepr (("S3BUCKETNAMETEXT").data)) }, []) := by
  simp [Transcribe.lambda_handler, hbk]

/-- Witness for the amended C4 at a concrete accepted event. -/
theorem c4_witness :
    Transcribe.lambda_handler (mkEvent (("b").data) (("dialog.mp3").data)) none [] none =
      some ({ statusCode := 500,
              body := json_dumps_str (("Error occurred: ").data ++
                Transcribe.keyErrorRepr (("S3BUCKETNAMETEXT").data)) }, []) :=
  c4_env_missing_caught (mkEvent (("b").data) (("dialog.mp3").data)) (("b").data)
    [] none rfl

/-- C5: for every event whose single record has object key exactly
"dialog.mp3", with the environment variable set and the job submission
succeeding, the handler issues exactly one job-start request with media
URI s3://<bucket>/dialog.mp3, MediaFormat "mp3", LanguageCode "en-US",
ShowSpeakerLabels true, MaxSpeakerLabels 2, output bucket taken from the
environment variable, and output key "<job-name>-transcript.json" where
the job name is the freshly generated prefixed UUID; and it returns a
response with statusCode 200. -/
theorem c5_start_job (event : S3Event) (bucket dest uuid4 : Str)
    (hbk : getBucketKey event = some (bucket, ("dialog.mp3").data)) :
    Transcribe.lambda_handler event (some dest) uuid4 none =
      some ({ statusCode := 200,
              body := json_dumps_str ((("Submitted transcription job for ").data ++
                ("dialog.mp3").data) ++
                ((" from bucket ").data ++ (bucket ++ (".").data))) },
        [{ TranscriptionJobName := ("transcription-job-").data ++ uuid4
           MediaFileUri := ("s3://").data ++ bucket ++ ('/' :: ("dialog.mp3").data)
           MediaFormat := ("mp3").data
           LanguageCode := ("en-US").data
           OutputBucketName := dest
           OutputKey := (("transcription-job-").data ++ uuid4) ++ ("-transcript.json").data
           ShowSpeakerLabels := true
           MaxSpeakerLabels := 2 }]) := by
  simp [Transcribe.lambda_handler, hbk]

/-- Witness for C5 at a concrete accepted event. -/
theorem c5_witness :
    Transcribe.lambda_handler (mkEvent (("b").data) (("dialog.mp3").data))
        (some (("out").data)) (("u").data) none =
      some ({ statusCode := 200,
              body := json_dumps_str ((("Submitted transcription job for ").data ++
                ("dialog.mp3").data) ++
                ((" from bucket ").data ++ (("b").data ++ (".").data))) },
        [{ TranscriptionJobName := ("transcription-job-").data ++ ("u").data
           MediaFileUri := ("s3://").data ++ ("b").data ++ ('/' :: ("dialog.mp3").data)
           MediaFormat := ("mp3").data
           LanguageCode := ("en-US").data
           OutputBucketName := ("out").data
           OutputKey := (("transcription-job-").data ++ ("u").data) ++ ("-transcript.json").data
           ShowSpeakerLabels := true
           MaxSpeakerLabels := 2 }]) :=
  c5_start_job (mkEvent (("b").data) (("dialog.mp3").data)) (("b").data)
    (("out").data) (("u").data) rfl

/-- C7: for every event whose single record has an object key different
from "dialog.mp3", the handler returns statusCode 200 with the skip
message and issues no job-start request, whatever the environment variable
and the job-submission oracle hold (no external call and no
environment-variable access); moreover, when the key consists of plain
unescaped characters, the body literally contains "Skipping file <key>". -/
theorem c7_skip (event : S3Event) (bucket key : Str)
    (hbk : getBucketKey event = some (bucket, key))
    (hne : key ≠ ("dialog.mp3").data) :
    (∀ env uuid4 startJobError,
      Transcribe.lambda_handler event env uuid4 startJobError =
        some ({ statusCode := 200,
                body := json_dumps_str ((("Skipping file ").data ++ key) ++
                  (" - not dialog.mp3").data) }, [])) ∧
    ((∀ c ∈ key, plainChar c) →
      ∃ s t, json_dumps_str ((("Skipping file ").data ++ key) ++
          (" - not dialog.mp3").data) =
        s ++ ((("Skipping file ").data ++ key) ++ t)) := by
  constructor
  · intro env uuid4 startJobError
    simp [Transcribe.lambda_handler, hbk, hne]
  · intro hplain
    refine ⟨['"'], jsonEscape ((" - not dialog.mp3").data) ++ ['"'], ?_⟩
    have hm1 : jsonEscape ((("Skipping file ").data ++ key)) =
        ("Skipping file ").data ++ key := by
      apply jsonEscape_plain
      intro c hc
      rcases List.mem_append.mp hc with h | h
      · exact (by decide : ∀ c ∈ ("Skipping file ").data, plainChar c) c h
      · exact hplain c h
    rw [json_dumps_str, jsonEscape_append, hm1]
    simp

/-- Witness for C7 at the concrete key "other.mp3". -/
theorem c7_witness :
    Transcribe.lambda_handler (mkEvent (("b").data) (("other.mp3").data)) none [] none =
      some ({ statusCode := 200,
              body := json_dumps_str ((("Skipping file ").data ++ ("other.mp3").data) ++
                (" - not dialog.mp3").data) }, []) ∧
    ∃ s t, json_dumps_str ((("Skipping file ").data ++ ("other.mp3").data) ++
        (" - not dialog.mp3").data) =
      s ++ ((("Skipping file ").data ++ ("other.mp3").data) ++ t) :=
  ⟨(c7_skip (mkEvent (("b").data) (("other.mp3").data)) (("b").data)
      (("other.mp3").data) rfl (by decide)).1 none [] none,
   (c7_skip (mkEvent (("b").data) (("other.mp3").data)) (("b").data)
      (("other.mp3").data) rfl (by decide)).2 (by decide)⟩

/-- C8: for every event whose single record has an object key not
containing the substring "-transcript.json", the Summarization Handler
returns statusCode 200 with the skip message, and performs no storage
fetch, no model invocation and no storage write: for every oracle outcome
the result is this skip response with empty request and write lists. -/
theorem c8_skip (event : S3Event) (bucket key : Str)
    (hbk : getBucketKey event = some (bucket, key))
    (hkey : strContains (("-transcript.json").data) key = false) :
    ∀ templateResult fetchResult invokeResult putError,
      Summarize.lambda_handler event templateResult fetchResult invokeResult putError =
        some ({ statusCode := 200,
                body := json_dumps_str ((("Skipping file ").data ++ key) ++
                  (" - not a transcript JSON file").data) }, [], []) := by
  intro tr f i p
  simp [Summarize.lambda_handler, hbk, hkey]

/-- Witness for C8 at the concrete key "results.txt". -/
theorem c8_witness :
    Summarize.lambda_handler (mkEvent (("b").data) (("results.txt").data))
        (Except.ok ⟨[], [], []⟩) (Except.error []) (Except.error []) none =
      some ({ statusCode := 200,
              body := json_dumps_str ((("Skipping file ").data ++ ("results.txt").data) ++
                (" - not a transcript JSON file").data) }, [], []) :=
  c8_skip (mkEvent (("b").data) (("results.txt").data)) (("b").data)
    (("results.txt").data) rfl (by decide) (Except.ok ⟨[], [], []⟩) (Except.error [])
    (Except.error []) none

/-- C9: for every accepted Summarization invocation in which an exception
is raised before the storage write — during the object fetch, during
transcript parsing/formatting, during prompt rendering (the template
open/read/parse of lambda_summarize.py lines 132-142, raised inside the
try block before any model request is built), or during the model
invocation — the handler returns statusCode 500 with the error's string
representation in the body and performs no storage write at all, so the
object at "results.txt" is left unchanged (the successful-path write is a
single atomic put, recorded only when it happens). -/
theorem c9_error_before_write (event : S3Event) (bucket key : Str)
    (templateResult : Except Str PromptTemplate)
    (fetchResult : Except Str Summarize.TranscriptJson)
    (invokeResult : Except Str (List (Option Str)))
    (putError : Option Str)
    (hbk : getBucketKey event = some (bucket, key))
    (hkey : strContains (("-transcript.json").data) key = true)
    (hfail :
      (∃ e, fetchResult = Except.error e) ∨
      (∃ doc, fetchResult = Except.ok doc ∧
        Summarize.extract_transcript_from_textract doc = none) ∨
      (∃ doc transcript e, fetchResult = Except.ok doc ∧
        Summarize.extract_transcript_from_textract doc = some transcript ∧
        templateResult = Except.error e) ∨
      (∃ doc transcript tpl e, fetchResult = Except.ok doc ∧
        Summarize.extract_transcript_from_textract doc = some transcript ∧
        templateResult = Except.ok tpl ∧
        invokeResult = Except.error e)) :
    ∃ e reqs, Summarize.lambda_handler event templateResult fetchResult invokeResult
        putError =
      some ({ statusCode := 500,
              body := json_dumps_str (("Error occurred: ").data ++ e) }, reqs, []) := by
  rcases hfail with ⟨e, rfl⟩ | ⟨doc, rfl, hext⟩ | ⟨doc, transcript, e, rfl, hext, rfl⟩ |
    ⟨doc, transcript, tpl, e, rfl, hext, rfl, rfl⟩
  · exact ⟨e, [], by simp [Summarize.lambda_handler, hbk, hkey]⟩
  · exact ⟨("list index out of range").data, [],
      by simp [Summarize.lambda_handler, hbk, hkey, hext]⟩
  · exact ⟨e, [],
      by simp [Summarize.lambda_handler, Summarize.bedrock_summarisation, hbk, hkey, hext]⟩
  · exact ⟨e,
      (Summarize.bedrock_summarisation (Except.ok tpl) transcript (Except.error e)).1,
      by simp [Summarize.lambda_handler, Summarize.bedrock_summarisation, hbk, hkey, hext]⟩

/-- Witness for C9 at a concrete accepted event whose prompt-template
read raises after a successfully formatted transcript. -/
theorem c9_witness :
    ∃ e reqs, Summarize.lambda_handler
        (mkEvent (("b").data) (("job123-transcript.json").data))
        (Except.error (("no template").data)) (Except.ok scenario1Doc)
        (Except.error []) none =
      some ({ statusCode := 500,
              body := json_dumps_str (("Error occurred: ").data ++ e) }, reqs, []) :=
  c9_error_before_write (mkEvent (("b").data) (("job123-transcript.json").data))
    (("b").data) (("job123-transcript.json").data)
    (Except.error (("no template").data)) (Except.ok scenario1Doc)
    (Except.error []) none rfl (by decide)
    (Or.inr (Or.inr (Or.inl ⟨scenario1Doc, ("\nspk_0: Hello, there ").data,
      ("no template").data, rfl, by decide, rfl⟩)))

/-- C10: in both handlers, an invocation event that lacks the expected
record structure (no "Records" list, an empty list, or a first record
missing the "s3", "bucket"/"name" or "object"/"key" fields) makes the
bucket/key extraction raise an uncaught lookup error before the acceptance
guard and before the try/except, so the handler returns no status response
at all — neither the skip path nor the failure-status path is reached. -/
theorem c10_malformed_event (event : S3Event)
    (hmal : event.Records = none ∨ event.Records = some [] ∨
      ∃ r rs, event.Records = some (r :: rs) ∧
        (r.s3 = none ∨ ∃ s3r, r.s3 = some s3r ∧
          (s3r.bucket = none ∨ (∃ b, s3r.bucket = some b ∧ b.name = none) ∨
           s3r.object = none ∨ (∃ o, s3r.object = some o ∧ o.key = none)))) :
    (∀ env uuid4 startJobError,
      Transcribe.lambda_handler event env uuid4 startJobError = none) ∧
    (∀ templateResult fetchResult invokeResult putError,
      Summarize.lambda_handler event templateResult fetchResult invokeResult
        putError = none) := by
  have hbk : getBucketKey event = none := by
    rcases hmal with hrec | hrec | ⟨r, rs, hrec, h⟩
    · simp [getBucketKey, hrec]
    · simp [getBucketKey, hrec]
    · rcases h with hs3 | ⟨s3r, hs3, h⟩
      · simp [getBucketKey, hrec, hs3]
      · rcases h with hb | ⟨b, hb, hn⟩ | ho | ⟨o, ho, hk⟩
        · simp [getBucketKey, hrec, hs3, hb]
        · simp [getBucketKey, hrec, hs3, hb, hn]
        · rcases hbu : s3r.bucket with _ | b
          · simp [getBucketKey, hrec, hs3, hbu]
          · rcases hname : b.name with _ | bn
            · simp [getBucketKey, hrec, hs3, hbu, hname]
            · simp [getBucketKey, hrec, hs3, hbu, hname, ho]
        · rcases hbu : s3r.bucket with _ | b
          · simp [getBucketKey, hrec, hs3, hbu]
          · rcases hname : b.name with _ | bn
            · simp [getBucketKey, hrec, hs3, hbu, hname]
            · simp [getBucketKey, hrec, hs3, hbu, hname, ho, hk]
  exact ⟨fun env uuid4 startJobError => by simp [Transcribe.lambda_handler, hbk],
         fun tr f i p => by simp [Summarize.lambda_handler, hbk]⟩

/-- Witness for C10 at the concrete event with no "Records" field. -/
theorem c10_witness :
    Transcribe.lambda_handler ⟨none⟩ none [] none = none ∧
    Summarize.lambda_handler ⟨none⟩ (Except.ok ⟨[], [], []⟩) (Except.error [])
      (Except.error []) none = none :=
  ⟨(c10_malformed_event ⟨none⟩ (Or.inl rfl)).1 none [] none,
   (c10_malformed_event ⟨none⟩ (Or.inl rfl)).2 (Except.ok ⟨[], [], []⟩)
     (Except.error []) (Except.error []) none⟩

/-- C6: for every event whose object key contains "-transcript.json" and
whose fetched object body is valid transcript JSON (formatting
successfully), with the template read, the model call and the put
succeeding, the Summarization Handler renders a prompt containing the
formatted dialogue and the three fixed topics charges, location and
availability, invokes the generative model exactly once, and performs
exactly one storage write, at key "results.txt" in the triggering
bucket. -/
theorem c6_summarize_accept (event : S3Event) (bucket key : Str)
    (tpl : PromptTemplate) (doc : Summarize.TranscriptJson) (transcript : Str)
    (blocks : List (Option Str))
    (hbk : getBucketKey event = some (bucket, key))
    (hkey : strContains (("-transcript.json").data) key = true)
    (hext : Summarize.extract_transcript_from_textract doc = some transcript) :
    ∃ kwargs summary resp,
      Summarize.lambda_handler event (Except.ok tpl) (Except.ok doc)
          (Except.ok blocks) none =
        some (resp, [kwargs],
          [{ Bucket := bucket, Key := ("results.txt").data, Body := summary,
             ContentType := ("text/plain").data }]) ∧
      (∃ s t, Summarize.BedrockKwargs.promptText kwargs = s ++ (transcript ++ t)) ∧
      (∃ s t, Summarize.BedrockKwargs.promptText kwargs = s ++ (("charges").data ++ t)) ∧
      (∃ s t, Summarize.BedrockKwargs.promptText kwargs = s ++ (("location").data ++ t)) ∧
      (∃ s t, Summarize.BedrockKwargs.promptText kwargs = s ++ (("availability").data ++ t)) := by
  have hJ : joinSep ((", ").data)
      [("charges").data, ("location").data, ("availability").data] =
      ("charges, location, availability").data := by decide
  refine ⟨{ modelId := ("us.amazon.nova-lite-v1:0").data
            contentType := ("application/json").data
            accept := ("*/*").data
            role := ("user").data
            promptText := jinja_render tpl transcript
              [("charges").data, ("location").data, ("availability").data]
            maxTokens := 2048
            temperature := 0
            topP := 9 / 10 },
    (blocks.findSome? id).getD [],
    { statusCode := 200,
      body := json_dumps_str (((("Successfully summarized ").data ++ key) ++
        ((" from bucket ").data ++ bucket)) ++
        ((". Summary: ").data ++ (blocks.findSome? id).getD [])) }, ?_, ?_, ?_, ?_, ?_⟩
  · simp [Summarize.lambda_handler, Summarize.bedrock_summarisation, hbk, hkey, hext]
  · exact ⟨tpl.pre, (tpl.mid ++ joinSep ((", ").data)
      [("charges").data, ("location").data, ("availability").data]) ++ tpl.post,
      by simp [jinja_render]⟩
  · refine ⟨(tpl.pre ++ transcript) ++ tpl.mid,
      (", location, availability").data ++ tpl.post, ?_⟩
    have hsplit : ("charges, location, availability").data =
        ("charges").data ++ (", location, availability").data := by decide
    simp [jinja_render, hJ, hsplit]
  · refine ⟨(tpl.pre ++ transcript) ++ (tpl.mid ++ ("charges, ").data),
      (", availability").data ++ tpl.post, ?_⟩
    have hsplit : ("charges, location, availability").data =
        ("charges, ").data ++ (("location").data ++ (", availability").data) := by decide
    simp [jinja_render, hJ, hsplit]
  · refine ⟨(tpl.pre ++ transcript) ++ (tpl.mid ++ ("charges, location, ").data),
      tpl.post, ?_⟩
    have hsplit : ("charges, location, availability").data =
        ("charges, location, ").data ++ ("availability").data := by decide
    simp [jinja_render, hJ, hsplit]

/-- Witness for C6 at a concrete accepted event with the Scenario 1
document as fetched transcript JSON. -/
theorem c6_witness :
    ∃ kwargs summary resp,
      Summarize.lambda_handler (mkEvent (("b").data) (("job123-transcript.json").data))
          (Except.ok ⟨[], [], []⟩) (Except.ok scenario1Doc)
          (Except.ok [none, some (("fine").data)]) none =
        some (resp, [kwargs],
          [{ Bucket := ("b").data, Key := ("results.txt").data, Body := summary,
             ContentType := ("text/plain").data }]) ∧
      (∃ s t, Summarize.BedrockKwargs.promptText kwargs =
        s ++ ((("\nspk_0: Hello, there ").data) ++ t)) ∧
      (∃ s t, Summarize.BedrockKwargs.promptText kwargs = s ++ (("charges").data ++ t)) ∧
      (∃ s t, Summarize.BedrockKwargs.promptText kwargs = s ++ (("location").data ++ t)) ∧
      (∃ s t, Summarize.BedrockKwargs.promptText kwargs = s ++ (("availability").data ++ t)) :=
  c6_summarize_accept (mkEvent (("b").data) (("job123-transcript.json").data))
    (("b").data) (("job123-transcript.json").data) ⟨[], [], []⟩ scenario1Doc
    (("\nspk_0: Hello, there ").data) [none, some (("fine").data)]
    rfl (by decide) (by decide)
